import Mathlib

/-!
Shallow embedding of custom_components/growatt_solar_modbus/sensor.py.

The module wires a Growatt solar inverter (reached through the external
GrowattClient library) into a home-automation platform: a data probe
(GrowattClientDataProbe) caches the latest reading and throttles refreshes,
and one sensor entity (GrowattClientSensor) per client attribute presents a
single key of the cached reading together with static unit, device-class and
state-class metadata.

Embedding conventions:
- Python dict and list values returned by the client become association
  lists (Reading); Python None becomes Option.none.
- The coroutine update() becomes a pure step function taking the current
  time and the result the client would produce (Except: ok reading / error),
  and returning the new probe state together with two observations: whether
  the client was contacted and whether an exception propagated out of the
  call. The source body of update() has no exception handler, so a client
  error always propagates when the client is contacted.
- The Throttle decorator and the voluptuous configuration schema live in
  external libraries, not in this repository; they are modelled from the
  specification text (see the doc comments of throttled and
  validate_config).
-/

/-- Values stored in a Reading, as produced by the external client: numbers
or strings (floating point values are out of scope of the claims). -/
inductive PyValue where
  | int : Int → PyValue
  | str : String → PyValue
deriving DecidableEq, Repr

/-- Python str() applied to a cached value, as used by the source's
formatting method. -/
def PyValue.toStr : PyValue → String
  | .int i => toString i
  | .str s => s

/-- A Reading: the mapping from attribute name to current value returned by
client.async_update(), embedded as an association list. The probe's initial
value self.data = [] is the empty association list. -/
abbrev Reading := List (String × PyValue)

/-- Python key-membership test "name in self.data" (dict key membership;
on the initial empty list it is false for every name). -/
def hasKey (data : Reading) (name : String) : Bool :=
  data.any (fun kv => kv.1 == name)

/-- Python str.endswith, embedded as a suffix test on the character list. -/
def strEndsWith (s suf : String) : Bool :=
  suf.data.isSuffixOf s.data

/-- SCAN_INTERVAL = timedelta(seconds=30), in seconds (sensor.py line 31). -/
def SCAN_INTERVAL : Nat := 30

/-- State of a GrowattClientDataProbe: the cached reading self.data, and the
timestamp of the last update() invocation that reached the client. The
client reference held by the Python object is externalized: each update step
receives the result the client would return. The lastFetch field is
Modelled from the spec: it realizes the throttle guard state of the host
platform's Throttle(SCAN_INTERVAL) decorator, which is not part of this
repository ("an explicit guard stored on the Probe: last-fetch timestamp +
interval constant, checked at the top of refresh"). -/
structure GrowattClientDataProbe where
  data : Reading
  lastFetch : Option Nat
deriving DecidableEq, Repr

/-- GrowattClientDataProbe.__init__ (sensor.py lines 119-122): self.data = [],
and no fetch has been recorded yet, so the first update() always proceeds. -/
def GrowattClientDataProbe.init : GrowattClientDataProbe :=
  { data := [], lastFetch := none }

/-- Modelled from the spec: the guard of the Throttle(SCAN_INTERVAL)
decorator on update() (homeassistant.util.Throttle, not part of this
repository). Per the spec, a call is a no-op when "less than the configured
interval has elapsed since the last invocation that actually performed a
fetch"; before any fetch the guard never blocks. -/
def throttled (st : GrowattClientDataProbe) (now : Nat) : Bool :=
  match st.lastFetch with
  | none => false
  | some t0 => decide (now - t0 < SCAN_INTERVAL)

/-- Result of one client async_update() call: the fresh Reading on success,
or an error (the client raised). -/
abbrev FetchResult := Except Unit Reading

/-- Observable outcome of one call to the throttled update(): the probe
state afterwards, whether client.async_update() was invoked, and whether an
exception propagated out of the call to the caller. -/
structure UpdateResult where
  state : GrowattClientDataProbe
  contacted : Bool
  raised : Bool
deriving DecidableEq, Repr

/-- GrowattClientDataProbe.update (sensor.py lines 124-128), wrapped by
Throttle(SCAN_INTERVAL). When throttled the call returns immediately
without contacting the client. Otherwise the client is invoked: on success
self.data is replaced by the fresh reading; on failure the body has no
exception handler, so the error propagates and self.data is left unchanged.
The throttle timestamp is recorded for the invocation either way (the
decorator records the time when the call is dispatched to the client, before
the coroutine runs). -/
def GrowattClientDataProbe.update (st : GrowattClientDataProbe) (now : Nat)
    (fetch : FetchResult) : UpdateResult :=
  if throttled st now then
    { state := st, contacted := false, raised := false }
  else
    match fetch with
    | .ok d => { state := { data := d, lastFetch := some now },
                 contacted := true, raised := false }
    | .error _ => { state := { st with lastFetch := some now },
                    contacted := true, raised := true }

/-- GrowattClientDataProbe.get_data (sensor.py lines 130-134): None when the
name is not a key of self.data, the stored value otherwise. -/
def GrowattClientDataProbe.get_data (st : GrowattClientDataProbe)
    (name : String) : Option PyValue :=
  if hasKey st.data name = false then none
  else st.data.lookup name

/-- GrowattClientDataProbe.has_data (sensor.py lines 136-138): Python
bool(self.data), i.e. truthiness of the current cached reading, which is
exactly nonemptiness. -/
def GrowattClientDataProbe.has_data (st : GrowattClientDataProbe) : Bool :=
  !st.data.isEmpty

/-- GrowattClientDataProbe.__format__ (sensor.py lines 140-144): the empty
string when get_data yields None, otherwise str() of the value. It only
reads the state. -/
def GrowattClientDataProbe.format (st : GrowattClientDataProbe)
    (key : String) : String :=
  match st.get_data key with
  | none => ""
  | some v => v.toStr

/-- An attribute descriptor from the client's catalog, with the keys the
source reads: attr["name"], attr["description"], attr["unit"]. -/
structure ClientAttr where
  name : String
  description : String
  unit : String
deriving DecidableEq, Repr

/-- The state-class values the source can produce (subset of the host
platform's SensorStateClass enum). -/
inductive SensorStateClass where
  | total_increasing
deriving DecidableEq, Repr

/-- The device-class values the source can produce (subset of the host
platform's SensorDeviceClass enum). -/
inductive SensorDeviceClass where
  | energy
  | power
  | voltage
  | current
  | battery
deriving DecidableEq, Repr

/-- sensor_state_class (sensor.py lines 55-59): TOTAL_INCREASING when the
attribute name ends with "lifetime" or "today", None otherwise. -/
def sensor_state_class (attr : ClientAttr) : Option SensorStateClass :=
  if strEndsWith attr.name "lifetime" || strEndsWith attr.name "today" then
    some SensorStateClass.total_increasing
  else none

/-- sensor_device_class (sensor.py lines 62-75): fixed lookup from the unit
string. -/
def sensor_device_class (attr : ClientAttr) : Option SensorDeviceClass :=
  if attr.unit = "kWh" then some SensorDeviceClass.energy
  else if attr.unit = "kW" then some SensorDeviceClass.power
  else if attr.unit = "V" then some SensorDeviceClass.voltage
  else if attr.unit = "A" then some SensorDeviceClass.current
  else if attr.unit = "%" then some SensorDeviceClass.battery
  else none

/-- unit_of_measurement (sensor.py lines 78-80). -/
def unit_of_measurement (attr : ClientAttr) : String :=
  attr.unit

/-- SensorEntityDescription with the fields the source sets (sensor.py lines
44-52). -/
structure SensorEntityDescription where
  key : String
  name : String
  native_unit_of_measurement : String
  device_class : Option SensorDeviceClass
  state_class : Option SensorStateClass
deriving DecidableEq, Repr

/-- create_sensor_entity_description (sensor.py lines 44-52). -/
def create_sensor_entity_description (attr : ClientAttr) :
    SensorEntityDescription :=
  { key := attr.name,
    name := attr.description,
    native_unit_of_measurement := unit_of_measurement attr,
    device_class := sensor_device_class attr,
    state_class := sensor_state_class attr }

/-- The construction-time fields of a GrowattClientSensor the claims are
about: the entity description, the unique id and the display name (the
shared probe reference is passed explicitly to the accessors below). -/
structure GrowattClientSensor where
  entity_description : SensorEntityDescription
  attr_unique_id : String
  attr_name : String
deriving DecidableEq, Repr

/-- GrowattClientSensor.__init__ (sensor.py lines 150-169):
unique id = serial + "_" + description.key, display name =
f-string "{name} {description.name}". -/
def GrowattClientSensor.mk_sensor (name : String) (serial : String)
    (description : SensorEntityDescription) : GrowattClientSensor :=
  { entity_description := description,
    attr_unique_id := serial ++ "_" ++ description.key,
    attr_name := name ++ " " ++ description.name }

/-- GrowattClientSensor.available (sensor.py lines 171-173): delegates to the
shared probe's has_data. -/
def GrowattClientSensor.available (_s : GrowattClientSensor)
    (probe : GrowattClientDataProbe) : Bool :=
  probe.has_data

/-- GrowattClientSensor.native_value (sensor.py lines 175-178): the probe's
cached value for the sensor's bound key. -/
def GrowattClientSensor.native_value (s : GrowattClientSensor)
    (probe : GrowattClientDataProbe) : Option PyValue :=
  probe.get_data s.entity_description.key

/-- A raw configuration mapping before schema validation: each option either
present or absent. -/
structure RawConfig where
  port : Option String
  address : Option Nat
  name : Option String
deriving DecidableEq, Repr

/-- A validated configuration as consumed by async_setup_platform. -/
structure Config where
  port : String
  address : Nat
  name : String
deriving DecidableEq, Repr

/-- Modelled from the spec: the PLATFORM_SCHEMA extension (sensor.py lines
35-41) uses the external voluptuous library, not part of this repository.
Per the spec's configuration table: port is required (validation fails
without it), address is optional with default 1, name is optional with
default "". -/
def validate_config (c : RawConfig) : Option Config :=
  match c.port with
  | none => none
  | some p => some { port := p, address := c.address.getD 1, name := c.name.getD "" }

/-- Display-name defaulting in async_setup_platform (sensor.py lines
103-104): the serial number stands in when the configured name is "". -/
def effective_name (name : String) (serial_number : String) : String :=
  if name = "" then serial_number else name

/-- Sensor-list construction in async_setup_platform (sensor.py lines
106-111): one sensor per catalog attribute. -/
def setup_sensors (name : String) (serial_number : String)
    (attrs : List ClientAttr) : List GrowattClientSensor :=
  attrs.map (fun attr =>
    GrowattClientSensor.mk_sensor name serial_number
      (create_sensor_entity_description attr))

/-! Helper lemmas shared by the claim theorems. -/

/-- Appending a fixed string on the left is cancellative. -/
theorem string_append_left_cancel {a b c : String} (h : a ++ b = a ++ c) :
    b = c := by
  have h2 : (a ++ b).data = (a ++ c).data := by rw [h]
  simp only [String.data_append] at h2
  exact String.ext (List.append_cancel_left h2)

/-- Appending a fixed string on the left is injective. -/
theorem string_append_left_injective (s : String) :
    Function.Injective (fun n => s ++ n) := by
  intro x y h
  exact string_append_left_cancel h

/-- Key membership in a reading agrees with definedness of lookup. -/
theorem hasKey_eq_isSome (data : Reading) (name : String) :
    hasKey data name = (data.lookup name).isSome := by
  induction data with
  | nil => rfl
  | cons kv tl ih =>
    obtain ⟨k, v⟩ := kv
    by_cases h : k = name
    · subst h
      simp [hasKey, List.lookup]
    · have h1 : (k == name) = false := by
        simp [h]
      have h2 : (name == k) = false := by
        simp [Ne.symm h]
      simp [hasKey, List.lookup, h1, h2] at ih ⊢
      simpa [hasKey] using ih

/-! Theorems for the claims. -/

/-- C1: two update() calls less than SCAN_INTERVAL apart make exactly one
client call: the first (non-throttled) call contacts the client, and the
second, made while less than the interval has elapsed since the call that
performed the fetch, is a no-op that returns without contacting the client
and leaves the probe state unchanged. -/
theorem C1_throttle_two_calls (st : GrowattClientDataProbe) (t1 t2 : Nat)
    (f1 f2 : FetchResult)
    (h1 : throttled st t1 = false) (_hle : t1 ≤ t2)
    (h2 : t2 - t1 < SCAN_INTERVAL) :
    (st.update t1 f1).contacted = true ∧
    ((st.update t1 f1).state.update t2 f2).contacted = false ∧
    ((st.update t1 f1).state.update t2 f2).state = (st.update t1 f1).state := by
  cases f1 with
  | ok d =>
    have hthr : throttled { data := d, lastFetch := some t1 } t2 = true := by
      simp [throttled]
      exact h2
    simp [GrowattClientDataProbe.update, h1, hthr]
  | error e =>
    have hthr : throttled { st with lastFetch := some t1 } t2 = true := by
      simp [throttled]
      exact h2
    simp [GrowattClientDataProbe.update, h1, hthr]

/-- C1 witness: a concrete run of the two-call scenario at times 0 and 10. -/
theorem C1_throttle_two_calls_witness :
    (GrowattClientDataProbe.init.update 0
        (Except.ok [("power_now", PyValue.int 2)])).contacted = true ∧
    ((GrowattClientDataProbe.init.update 0
        (Except.ok [("power_now", PyValue.int 2)])).state.update 10
        (Except.ok [("power_now", PyValue.int 3)])).contacted = false ∧
    ((GrowattClientDataProbe.init.update 0
        (Except.ok [("power_now", PyValue.int 2)])).state.update 10
        (Except.ok [("power_now", PyValue.int 3)])).state =
      (GrowattClientDataProbe.init.update 0
        (Except.ok [("power_now", PyValue.int 2)])).state :=
  C1_throttle_two_calls GrowattClientDataProbe.init 0 10 _ _
    (by decide) (by decide) (by decide)

/-- C2: when the client call fails, the cached reading is unchanged, so
get_data afterwards agrees with get_data before; and in the initial state,
where no reading was ever obtained, get_data is None. -/
theorem C2_failed_update_keeps_reading (st : GrowattClientDataProbe)
    (now : Nat) (name : String) :
    (st.update now (Except.error ())).state.get_data name = st.get_data name ∧
    GrowattClientDataProbe.init.get_data name = none := by
  constructor
  · by_cases h : throttled st now
    · simp [GrowattClientDataProbe.update, h]
    · simp [GrowattClientDataProbe.update, h, GrowattClientDataProbe.get_data]
  · rfl

/-- C3 counterexample: at the initial probe state and time 0, a failing
client call makes update() raise to its caller, refuting the claim that
refresh returns normally after a client error. -/
theorem C3_error_swallowed_counterexample :
    (GrowattClientDataProbe.init.update 0 (Except.error ())).contacted = true ∧
    (GrowattClientDataProbe.init.update 0 (Except.error ())).raised = true := by
  decide

/-- C3 (amended): a client error during a non-throttled update() is not
caught at the probe layer: the exception propagates to the caller of
refresh(), and only the cached reading is left unchanged. -/
theorem C3_error_propagates (st : GrowattClientDataProbe) (now : Nat)
    (h : throttled st now = false) :
    (st.update now (Except.error ())).raised = true ∧
    (st.update now (Except.error ())).state.data = st.data := by
  simp [GrowattClientDataProbe.update, h]

/-- C3 witness: the amended behavior at the initial state and time 0. -/
theorem C3_error_propagates_witness :
    (GrowattClientDataProbe.init.update 0 (Except.error ())).raised = true ∧
    (GrowattClientDataProbe.init.update 0 (Except.error ())).state.data =
      GrowattClientDataProbe.init.data :=
  C3_error_propagates GrowattClientDataProbe.init 0 (by decide)

/-- C4: the state classification is the cumulative counter classification
exactly when the attribute name ends with "lifetime" or "today", and the
instantaneous classification (None, no accumulation semantics) otherwise;
in particular "energy_today" is cumulative and "power_now" instantaneous. -/
theorem C4_state_class (attr : ClientAttr) :
    ((strEndsWith attr.name "lifetime" = true ∨
        strEndsWith attr.name "today" = true) →
      sensor_state_class attr = some SensorStateClass.total_increasing) ∧
    ((strEndsWith attr.name "lifetime" = false ∧
        strEndsWith attr.name "today" = false) →
      sensor_state_class attr = none) ∧
    sensor_state_class
        { name := "energy_today", description := "Energy today", unit := "kWh" } =
      some SensorStateClass.total_increasing ∧
    sensor_state_class
        { name := "power_now", description := "Power now", unit := "kW" } = none := by
  refine ⟨?_, ?_, by decide, by decide⟩
  · intro h
    rcases h with h | h <;> simp [sensor_state_class, h]
  · intro h
    simp [sensor_state_class, h.1, h.2]

/-- C4 witness: the suffix rule applied at the concrete name "energy_today". -/
theorem C4_state_class_witness :
    sensor_state_class
        { name := "energy_today", description := "Energy today", unit := "kWh" } =
      some SensorStateClass.total_increasing :=
  (C4_state_class
      { name := "energy_today", description := "Energy today", unit := "kWh" }).1
    (Or.inr (by decide))

/-- C5 counterexample: a successful, non-throttled update() whose fetched
mapping is empty leaves has_data false, refuting the claim that has_data is
true after any successful refresh. -/
theorem C5_has_data_counterexample :
    (GrowattClientDataProbe.init.update 0 (Except.ok [])).contacted = true ∧
    (GrowattClientDataProbe.init.update 0 (Except.ok [])).raised = false ∧
    (GrowattClientDataProbe.init.update 0 (Except.ok [])).state.has_data = false := by
  decide

/-- C5 (amended): has_data is false before any successful refresh, and after
a successful non-throttled refresh it reports truthiness of the fetched
mapping: true exactly when the mapping is nonempty. -/
theorem C5_has_data (st : GrowattClientDataProbe) (now : Nat) (d : Reading)
    (h : throttled st now = false) :
    GrowattClientDataProbe.init.has_data = false ∧
    (st.update now (Except.ok d)).raised = false ∧
    (st.update now (Except.ok d)).state.has_data = !d.isEmpty := by
  refine ⟨rfl, ?_, ?_⟩ <;>
    simp [GrowattClientDataProbe.update, h, GrowattClientDataProbe.has_data]

/-- C5 witness: a successful first fetch of a nonempty mapping makes
has_data true. -/
theorem C5_has_data_witness :
    GrowattClientDataProbe.init.has_data = false ∧
    (GrowattClientDataProbe.init.update 0
        (Except.ok [("power_now", PyValue.int 2)])).raised = false ∧
    (GrowattClientDataProbe.init.update 0
        (Except.ok [("power_now", PyValue.int 2)])).state.has_data =
      !([("power_now", PyValue.int 2)] : Reading).isEmpty :=
  C5_has_data GrowattClientDataProbe.init 0 _ (by decide)

/-- C6: the device classification is exactly the fixed table on the unit
string: kWh energy, kW power, V voltage, A current, percent battery, and no
classification for any other unit. -/
theorem C6_device_class (attr : ClientAttr) :
    (attr.unit = "kWh" → sensor_device_class attr = some SensorDeviceClass.energy) ∧
    (attr.unit = "kW" → sensor_device_class attr = some SensorDeviceClass.power) ∧
    (attr.unit = "V" → sensor_device_class attr = some SensorDeviceClass.voltage) ∧
    (attr.unit = "A" → sensor_device_class attr = some SensorDeviceClass.current) ∧
    (attr.unit = "%" → sensor_device_class attr = some SensorDeviceClass.battery) ∧
    ((attr.unit ≠ "kWh" ∧ attr.unit ≠ "kW" ∧ attr.unit ≠ "V" ∧
        attr.unit ≠ "A" ∧ attr.unit ≠ "%") →
      sensor_device_class attr = none) := by
  refine ⟨?_, ?_, ?_, ?_, ?_, ?_⟩ <;> intro h
  · simp [sensor_device_class, h]
  · simp [sensor_device_class, h]
  · simp [sensor_device_class, h]
  · simp [sensor_device_class, h]
  · simp [sensor_device_class, h]
  · simp [sensor_device_class, h.1, h.2.1, h.2.2.1, h.2.2.2.1, h.2.2.2.2]

/-- C6 witness: the unknown unit "XYZ" gets no device classification. -/
theorem C6_device_class_witness :
    sensor_device_class { name := "x", description := "y", unit := "XYZ" } = none :=
  (C6_device_class { name := "x", description := "y", unit := "XYZ" }).2.2.2.2.2
    (by decide)

/-- C7: setup builds exactly one sensor per catalog attribute, with unique
id serial_number + "_" + attribute name and display name
device name + " " + attribute label; and pairwise distinct attribute names
give pairwise distinct unique ids. -/
theorem C7_setup_sensors (devName serial_number : String)
    (attrs : List ClientAttr)
    (h : (attrs.map ClientAttr.name).Nodup) :
    (setup_sensors devName serial_number attrs).length = attrs.length ∧
    (setup_sensors devName serial_number attrs).map
        GrowattClientSensor.attr_unique_id =
      attrs.map (fun attr => serial_number ++ "_" ++ attr.name) ∧
    (setup_sensors devName serial_number attrs).map
        GrowattClientSensor.attr_name =
      attrs.map (fun attr => devName ++ " " ++ attr.description) ∧
    ((setup_sensors devName serial_number attrs).map
        GrowattClientSensor.attr_unique_id).Nodup := by
  have hid : (setup_sensors devName serial_number attrs).map
      GrowattClientSensor.attr_unique_id =
      attrs.map (fun attr => serial_number ++ "_" ++ attr.name) := by
    simp only [setup_sensors, List.map_map]
    rfl
  refine ⟨by simp [setup_sensors], hid, ?_, ?_⟩
  · simp only [setup_sensors, List.map_map]
    rfl
  · rw [hid]
    have hcomp : attrs.map (fun attr => serial_number ++ "_" ++ attr.name) =
        (attrs.map ClientAttr.name).map (fun n => (serial_number ++ "_") ++ n) := by
      simp only [List.map_map]
      rfl
    rw [hcomp]
    exact h.map (string_append_left_injective (serial_number ++ "_"))

/-- C7 witness: the spec's two-attribute scenario with serial "SN123". -/
theorem C7_setup_sensors_witness :
    (setup_sensors "SN123" "SN123"
        [{ name := "power_now", description := "Power now", unit := "kW" },
         { name := "energy_today", description := "Energy today", unit := "kWh" }]).length =
      ([{ name := "power_now", description := "Power now", unit := "kW" },
        { name := "energy_today", description := "Energy today", unit := "kWh" }] :
          List ClientAttr).length ∧
    ((setup_sensors "SN123" "SN123"
        [{ name := "power_now", description := "Power now", unit := "kW" },
         { name := "energy_today", description := "Energy today", unit := "kWh" }]).map
      GrowattClientSensor.attr_unique_id).Nodup :=
  ⟨(C7_setup_sensors "SN123" "SN123"
      [{ name := "power_now", description := "Power now", unit := "kW" },
       { name := "energy_today", description := "Energy today", unit := "kWh" }]
      (by decide)).1,
   (C7_setup_sensors "SN123" "SN123"
      [{ name := "power_now", description := "Power now", unit := "kW" },
       { name := "energy_today", description := "Energy today", unit := "kWh" }]
      (by decide)).2.2.2⟩

/-- C8: get_data returns the cached value when the key is present in the
current reading, None when the key is absent, and None in the initial state
where no reading was ever obtained. -/
theorem C8_get_data (st : GrowattClientDataProbe) (name : String) :
    (∀ v, st.data.lookup name = some v → st.get_data name = some v) ∧
    (st.data.lookup name = none → st.get_data name = none) ∧
    GrowattClientDataProbe.init.get_data name = none := by
  refine ⟨?_, ?_, rfl⟩
  · intro v hv
    simp [GrowattClientDataProbe.get_data, hasKey_eq_isSome, hv]
  · intro hv
    simp [GrowattClientDataProbe.get_data, hasKey_eq_isSome, hv]

/-- C8 witness: a present key yields its cached value on a concrete state. -/
theorem C8_get_data_witness :
    ({ data := [("power_now", PyValue.int 2)], lastFetch := none } :
        GrowattClientDataProbe).get_data "power_now" = some (PyValue.int 2) :=
  (C8_get_data
      { data := [("power_now", PyValue.int 2)], lastFetch := none }
      "power_now").1 (PyValue.int 2) (by decide)

/-- C9: schema validation fails without port, defaults address to 1 and name
to "" when absent, keeps supplied values otherwise; and setup replaces an
empty configured name by the serial number while keeping a nonempty one. -/
theorem C9_config (p : String) (a : Nat) (n : String) (serial_number : String) :
    validate_config { port := none, address := some a, name := some n } = none ∧
    validate_config { port := some p, address := none, name := none } =
      some { port := p, address := 1, name := "" } ∧
    validate_config { port := some p, address := some a, name := some n } =
      some { port := p, address := a, name := n } ∧
    effective_name "" serial_number = serial_number ∧
    (n ≠ "" → effective_name n serial_number = n) := by
  refine ⟨rfl, rfl, rfl, rfl, ?_⟩
  intro h
  simp [effective_name, h]

/-- C9 witness: a nonempty configured name is kept as the display name. -/
theorem C9_config_witness :
    effective_name "Inverter" "SN123" = "Inverter" :=
  (C9_config "port0" 1 "Inverter" "SN123").2.2.2.2 (by decide)

/-- C10: formatting the probe with a key yields "" when get_data is None and
str() of the cached value otherwise; it is a pure read of the probe state
(the embedding is a total function of the state, which it does not change). -/
theorem C10_format (st : GrowattClientDataProbe) (key : String) :
    (st.get_data key = none → st.format key = "") ∧
    (∀ v, st.get_data key = some v → st.format key = v.toStr) := by
  constructor
  · intro h
    simp [GrowattClientDataProbe.format, h]
  · intro v h
    simp [GrowattClientDataProbe.format, h]

/-- C10 witness: a missing key formats to "" and a present key to its
string form, on a concrete state. -/
theorem C10_format_witness :
    ({ data := [("power_now", PyValue.int 2)], lastFetch := none } :
        GrowattClientDataProbe).format "energy_today" = "" ∧
    ({ data := [("power_now", PyValue.int 2)], lastFetch := none } :
        GrowattClientDataProbe).format "power_now" = (PyValue.int 2).toStr :=
  ⟨(C10_format { data := [("power_now", PyValue.int 2)], lastFetch := none }
      "energy_today").1 (by decide),
   (C10_format { data := [("power_now", PyValue.int 2)], lastFetch := none }
      "power_now").2 (PyValue.int 2) (by decide)⟩
